import Mathlib

/-!
Shallow embedding of the Wormhole `Messages.sol` contract (VAA parsing and
guardian-quorum verification), faithful to the Solidity source.

Byte buffers are `List Nat` (one byte per element), 256-bit words are `Nat`,
and a Solidity `revert`/`require` failure is `Except.error` carrying the
revert string.  The EVM primitives `keccak256` and `ecrecover`, the guardian
registry getters and the verified-hash cache live in an `EthState` record:
they are external collaborators of the contract (Getters/Setters), modelled
from the spec where noted.
-/

namespace Wormhole

/-- Big-endian read of `n` bytes of `buf` starting at `start` (no bounds check). -/
def readBE (buf : List Nat) (start n : Nat) : Nat :=
  (List.range n).foldl (fun a i => a * 256 + buf.getD (start + i) 0) 0

/-- Bounds-checked big-endian read in the style of `BytesLib.toUintN`:
requires `start + n ≤ buf.length`, else reverts. -/
def toUintN (n : Nat) (buf : List Nat) (start : Nat) : Except String Nat :=
  if start + n ≤ buf.length then .ok (readBE buf start n) else .error "toUintN_outOfBounds"

/-- Embedding of `BytesLib.toUint8`. -/
def toUint8 (buf : List Nat) (start : Nat) : Except String Nat := toUintN 1 buf start

/-- Embedding of `BytesLib.toUint16`. -/
def toUint16 (buf : List Nat) (start : Nat) : Except String Nat := toUintN 2 buf start

/-- Embedding of `BytesLib.toUint32`. -/
def toUint32 (buf : List Nat) (start : Nat) : Except String Nat := toUintN 4 buf start

/-- Embedding of `BytesLib.toUint64`. -/
def toUint64 (buf : List Nat) (start : Nat) : Except String Nat := toUintN 8 buf start

/-- Embedding of `BytesLib.toBytes32` (a 32-byte word read big-endian as a `Nat`). -/
def toBytes32 (buf : List Nat) (start : Nat) : Except String Nat := toUintN 32 buf start

/-- Embedding of `BytesLib.slice`: `len` bytes of `buf` from `start`; reverts
when out of range. -/
def slice (buf : List Nat) (start len : Nat) : Except String (List Nat) :=
  if start + len ≤ buf.length then .ok ((buf.drop start).take len) else .error "slice_outOfRange"

/-- The 32 big-endian bytes of a 256-bit word (`abi.encodePacked` of a `bytes32`). -/
def word32bytes (n : Nat) : List Nat :=
  (List.range 32).map (fun i => n / 256 ^ (31 - i) % 256)

/-- Embedding of `keccak256(abi.encodePacked(keccak256(body)))`, with `k`
standing for the opaque `keccak256` primitive. -/
def doubleHash (k : List Nat → Nat) (body : List Nat) : Nat :=
  k (word32bytes (k body))

/-- Embedding of `Structs.Signature`. -/
structure Signature where
  guardianIndex : Nat
  r : Nat
  s : Nat
  v : Nat
deriving DecidableEq

/-- Embedding of `Structs.GuardianSet` (keys are guardian addresses as `Nat`). -/
structure GuardianSet where
  keys : List Nat
  expirationTime : Nat
deriving DecidableEq

/-- Embedding of `Structs.Observation`. -/
structure Observation where
  timestamp : Nat
  nonce : Nat
  emitterChainId : Nat
  emitterAddress : Nat
  sequence : Nat
  consistencyLevel : Nat
  payload : List Nat
deriving DecidableEq

/-- Embedding of `Structs.Header` (the shape `verifyHeader` consumes). -/
structure Header where
  guardianSetIndex : Nat
  signatures : List Signature
  hash : Nat
deriving DecidableEq

/-- Embedding of `Structs.VM` (version-1 message). -/
structure VM where
  version : Nat
  guardianSetIndex : Nat
  signatures : List Signature
  timestamp : Nat
  nonce : Nat
  emitterChainId : Nat
  emitterAddress : Nat
  sequence : Nat
  consistencyLevel : Nat
  payload : List Nat
  hash : Nat
deriving DecidableEq

/-- Embedding of `Structs.BatchHeader` (version-2 header). -/
structure BatchHeader where
  version : Nat
  guardianSetIndex : Nat
  signatures : List Signature
  hash : Nat
  hashes : List Nat
deriving DecidableEq

/-- Embedding of `Structs.VM2` (version-2 batch message). -/
structure VM2 where
  header : BatchHeader
  observations : List (List Nat)
deriving DecidableEq

/-- Embedding of `Structs.VM3` (version-3 message). -/
structure VM3 where
  version : Nat
  observation : Observation
  hash : Nat
deriving DecidableEq

/-- The contract's environment and storage: guardian registry, clock,
verified-hash cache, and the EVM crypto primitives (`keccak256`, `ecrecover`)
treated as opaque function-valued fields. -/
structure EthState where
  guardianSets : Nat → GuardianSet
  currentGuardianSetIndex : Nat
  timestamp : Nat
  verifiedCache : Nat → Bool
  keccak : List Nat → Nat
  ecrecover : Nat → Nat → Nat → Nat → Nat

/-- Modelled from the spec: the guardian-registry getter `getGuardianSet(index)`
(`Getters.sol` is not among the provided sources; §1 of the spec assumes a
read-only lookup returning keys and expiration). -/
def getGuardianSet (st : EthState) (i : Nat) : GuardianSet := st.guardianSets i

/-- Modelled from the spec: the registry getter `getCurrentGuardianSetIndex()`. -/
def getCurrentGuardianSetIndex (st : EthState) : Nat := st.currentGuardianSetIndex

/-- Modelled from the spec: the verified-hash-cache getter
`verifiedHashCached(hash)` (§4.4, `cached(hash) -> bool`). -/
def verifiedHashCached (st : EthState) (h : Nat) : Bool := st.verifiedCache h

/-- Modelled from the spec: the cache setter `updateVerifiedCacheStatus(hash, b)`
(§4.4, `markVerified(hash, verified)` on a keyed store). -/
def updateVerifiedCacheStatus (st : EthState) (h : Nat) (b : Bool) : EthState :=
  { st with verifiedCache := fun x => if x = h then b else st.verifiedCache x }

/-- Embedding of `Messages.parseObservation(start, length, encodedObservation)`. -/
def parseObservation (start length : Nat) (buf : List Nat) : Except String Observation := do
  let ts ← toUint32 buf start
  let nonce ← toUint32 buf (start + 4)
  let chain ← toUint16 buf (start + 8)
  let addr ← toBytes32 buf (start + 10)
  let seq ← toUint64 buf (start + 42)
  let cl ← toUint8 buf (start + 50)
  let consumed := (start + 51) - start
  if length < consumed then
    .error "Insufficient observation length"
  else do
    let payload ← slice buf (start + 51) (length - consumed)
    .ok { timestamp := ts, nonce := nonce, emitterChainId := chain, emitterAddress := addr,
          sequence := seq, consistencyLevel := cl, payload := payload }

/-- Embedding of `Messages.parseVM3`: the cursor starts at byte offset 3, reads
the version byte, then parses the observation passing the WHOLE buffer length
as `length` (exactly as the source does). -/
def parseVM3 (k : List Nat → Nat) (buf : List Nat) : Except String VM3 := do
  let ver ← toUint8 buf 3
  if ver = 3 then do
    let obs ← parseObservation 4 buf.length buf
    let body ← slice buf 4 (buf.length - 4)
    .ok { version := ver, observation := obs, hash := doubleHash k body }
  else
    .error "VM version incompatible"

/-- Embedding of `Messages.parseSignatures(start, signersLen, data)`:
`signersLen` 66-byte records (guardianIndex u8, r 32B, s 32B, recovery u8
normalized by `+ 27`). -/
def parseSignatures (data : List Nat) : Nat → Nat → Except String (List Signature)
  | _, 0 => .ok []
  | start, n + 1 => do
    let gi ← toUint8 data start
    let r ← toBytes32 data (start + 1)
    let s ← toBytes32 data (start + 33)
    let vb ← toUint8 data (start + 65)
    let rest ← parseSignatures data (start + 66) n
    .ok ({ guardianIndex := gi, r := r, s := s, v := vb + 27 } :: rest)

/-- Embedding of `Messages.parseVM` (version 1): version byte, guardianSetIndex,
signatures, then the body is double-hashed and parsed as an `Observation`. -/
def parseVM (k : List Nat → Nat) (buf : List Nat) : Except String VM := do
  let ver ← toUint8 buf 0
  if ver = 1 then do
    let gsi ← toUint32 buf 1
    let signersLen ← toUint8 buf 5
    let sigs ← parseSignatures buf 6 signersLen
    let index := 6 + 66 * signersLen
    let body ← slice buf index (buf.length - index)
    let obs ← parseObservation index (buf.length - index) buf
    .ok { version := ver, guardianSetIndex := gsi, signatures := sigs,
          timestamp := obs.timestamp, nonce := obs.nonce,
          emitterChainId := obs.emitterChainId, emitterAddress := obs.emitterAddress,
          sequence := obs.sequence, consistencyLevel := obs.consistencyLevel,
          payload := obs.payload, hash := doubleHash k body }
  else
    .error "VM version incompatible"

/-- The hash-list loop of `Messages.parseVM2`: `count` 32-byte words read from
`start` onward. -/
def parseHashes (data : List Nat) : Nat → Nat → Except String (List Nat)
  | _, 0 => .ok []
  | start, n + 1 => do
    let h ← toBytes32 data start
    let rest ← parseHashes data (start + 32) n
    .ok (h :: rest)

/-- The observations loop of `Messages.parseVM2`: each iteration reads
`observationLen` as a u32 at the cursor, advances the cursor by ONE byte, takes
`observationLen` bytes, prepends the tag byte `3`, and advances past them
(faithful to the source, which reads 4 bytes but advances 1). -/
def parseBatchObservations (data : List Nat) : Nat → Nat → Except String (List (List Nat))
  | _, 0 => .ok []
  | start, n + 1 => do
    let ol ← toUint32 data start
    let o ← slice data (start + 1) ol
    let rest ← parseBatchObservations data (start + 1 + ol) n
    .ok ((3 :: o) :: rest)

/-- Embedding of `Messages.parseVM2` (version-2 batch).  Faithful to the
source: after reading `hashesLen` the cursor is NOT advanced, so both the
double-hashed body slice and the parsed 32-byte hashes start AT the
`hashesLen` byte itself; likewise the cursor is not advanced past
`observationsLen`. -/
def parseVM2 (k : List Nat → Nat) (buf : List Nat) : Except String VM2 := do
  let ver ← toUint8 buf 0
  if ver = 2 then do
    let gsi ← toUint32 buf 1
    let signersLen ← toUint8 buf 5
    let sigs ← parseSignatures buf 6 signersLen
    let index := 6 + 66 * signersLen
    let hashesLen ← toUint8 buf index
    let body ← slice buf index (hashesLen * 32)
    let hashes ← parseHashes buf index hashesLen
    let index2 := index + 32 * hashesLen
    let observationsLen ← toUint8 buf index2
    let obs ← parseBatchObservations buf index2 observationsLen
    .ok { header := { version := ver, guardianSetIndex := gsi, signatures := sigs,
                      hash := doubleHash k body, hashes := hashes },
          observations := obs }
  else
    .error "VM version incompatible"

/-- Embedding of `Messages.quorum(numGuardians)`: requires fewer than 256
guardians, else reverts with `too many guardians`; otherwise the fixed-point
formula `numGuardians * 2 / 3 + 1`. -/
def quorum (numGuardians : Nat) : Except String Nat :=
  if numGuardians < 256 then .ok (numGuardians * 2 / 3 + 1) else .error "too many guardians"

/-- The signature walk of `Messages.verifySignatures`, with the loop state
(`lastIndex`, whether this is the first iteration) made explicit.  The two
`require` statements of the source are `Except.error` (reverts); a recovery
mismatch is the returned pair `(false, "VM signature invalid")`. -/
def verifySignaturesAux (ec : Nat → Nat → Nat → Nat → Nat) (hash : Nat) (gs : GuardianSet) :
    List Signature → Nat → Bool → Except String (Bool × String)
  | [], _, _ => .ok (true, "")
  | sig :: rest, lastIndex, isFirst =>
    if isFirst || decide (lastIndex < sig.guardianIndex) then
      if sig.guardianIndex < gs.keys.length then
        if ec hash sig.v sig.r sig.s = gs.keys.getD sig.guardianIndex 0 then
          verifySignaturesAux ec hash gs rest sig.guardianIndex false
        else
          .ok (false, "VM signature invalid")
      else
        .error "guardian index out of bounds"
    else
      .error "signature indices must be ascending"

/-- Embedding of `Messages.verifySignatures(hash, signatures, guardianSet)`
with the EVM `ecrecover` primitive passed explicitly (the source function is
`pure`). -/
def verifySignatures (ec : Nat → Nat → Nat → Nat → Nat) (hash : Nat)
    (sigs : List Signature) (gs : GuardianSet) : Except String (Bool × String) :=
  verifySignaturesAux ec hash gs sigs 0 true

/-- Embedding of `Messages.verifyHeader`: cache short-circuit, guardian-set
emptiness check, expiry check, quorum check, then the signature walk. -/
def verifyHeader (st : EthState) (vm : Header) : Except String (Bool × String) :=
  if verifiedHashCached st vm.hash then
    .ok (true, "")
  else
    let guardianSet := getGuardianSet st vm.guardianSetIndex
    if guardianSet.keys.length = 0 then
      .ok (false, "invalid guardian set")
    else if vm.guardianSetIndex ≠ getCurrentGuardianSetIndex st ∧
        guardianSet.expirationTime < st.timestamp then
      .ok (false, "guardian set has expired")
    else do
      let q ← quorum guardianSet.keys.length
      if vm.signatures.length < q then
        .ok (false, "no quorum")
      else do
        let (signaturesValid, invalidReason) ← verifySignatures st.ecrecover vm.hash vm.signatures guardianSet
        if !signaturesValid then
          .ok (false, invalidReason)
        else
          .ok (true, "")

/-- Embedding of `Messages.verifyVM`. -/
def verifyVM (st : EthState) (vm : VM) : Except String (Bool × String) :=
  verifyHeader st { guardianSetIndex := vm.guardianSetIndex, signatures := vm.signatures, hash := vm.hash }

/-- Embedding of `Messages.verifyBatchHeader`. -/
def verifyBatchHeader (st : EthState) (vm : BatchHeader) : Except String (Bool × String) :=
  verifyHeader st { guardianSetIndex := vm.guardianSetIndex, signatures := vm.signatures, hash := vm.hash }

/-- Embedding of `Messages.verifyVM3`: validity is purely cache membership. -/
def verifyVM3 (st : EthState) (vm : VM3) : Except String (Bool × String) :=
  if verifiedHashCached st vm.hash then .ok (true, "") else .ok (false, "Could not find hash in cache")

/-- Embedding of `Messages.parseAndVerifyVM`. -/
def parseAndVerifyVM (st : EthState) (buf : List Nat) : Except String (VM × Bool × String) := do
  let vm ← parseVM st.keccak buf
  let vr ← verifyVM st vm
  .ok (vm, vr.1, vr.2)

/-- Embedding of `Messages.parseAndVerifyVM2`: parses, verifies the batch
header, then marks EVERY hash of the batch as verified in the cache —
unconditionally, whether or not verification succeeded — and returns the
triple together with the updated state. -/
def parseAndVerifyVM2 (st : EthState) (buf : List Nat) :
    Except String ((VM2 × Bool × String) × EthState) := do
  let vm ← parseVM2 st.keccak buf
  let vr ← verifyBatchHeader st vm.header
  let st2 := vm.header.hashes.foldl (fun s h => updateVerifiedCacheStatus s h true) st
  .ok ((vm, vr.1, vr.2), st2)

/-- Embedding of `Messages.parseAndVerifyVM3`. -/
def parseAndVerifyVM3 (st : EthState) (buf : List Nat) : Except String (VM3 × Bool × String) := do
  let vm ← parseVM3 st.keccak buf
  let vr ← verifyVM3 st vm
  .ok (vm, vr.1, vr.2)

/-- The default-initialized `Structs.Observation` memory struct that the
`else` branch of `parseAndVerifyVAA` returns untouched. -/
def defaultObservation : Observation :=
  { timestamp := 0, nonce := 0, emitterChainId := 0, emitterAddress := 0,
    sequence := 0, consistencyLevel := 0, payload := [] }

/-- Embedding of `Messages.parseAndVerifyVAA`: dispatch on the first byte;
versions 1 and 3 are routed, anything else yields `(false, "Invalid version")`
with the default-zero observation. -/
def parseAndVerifyVAA (st : EthState) (buf : List Nat) :
    Except String (Observation × Bool × String) := do
  let version ← toUint8 buf 0
  if version = 1 then do
    let (vm, valid, reason) ← parseAndVerifyVM st buf
    .ok ({ timestamp := vm.timestamp, nonce := vm.nonce,
           emitterChainId := vm.emitterChainId, emitterAddress := vm.emitterAddress,
           sequence := vm.sequence, consistencyLevel := vm.consistencyLevel,
           payload := vm.payload }, valid, reason)
  else if version = 3 then do
    let (vm, valid, reason) ← parseAndVerifyVM3 st buf
    .ok (vm.observation, valid, reason)
  else
    .ok (defaultObservation, false, "Invalid version")

/-- The non-cached path of `Messages.verifyHeader` (everything after the
verified-hash-cache short-circuit), named separately so that theorems can
state when the full pipeline — signature recovery included — is re-run. -/
def verifyHeaderSlow (st : EthState) (vm : Header) : Except String (Bool × String) :=
  let guardianSet := getGuardianSet st vm.guardianSetIndex
  if guardianSet.keys.length = 0 then
    .ok (false, "invalid guardian set")
  else if vm.guardianSetIndex ≠ getCurrentGuardianSetIndex st ∧
      guardianSet.expirationTime < st.timestamp then
    .ok (false, "guardian set has expired")
  else do
    let q ← quorum guardianSet.keys.length
    if vm.signatures.length < q then
      .ok (false, "no quorum")
    else do
      let (signaturesValid, invalidReason) ← verifySignatures st.ecrecover vm.hash vm.signatures guardianSet
      if !signaturesValid then
        .ok (false, invalidReason)
      else
        .ok (true, "")

/-- Boolean success test for an `Except` result (did the call avoid reverting?). -/
def resultOk : Except ε α → Bool
  | .ok _ => true
  | .error _ => false

/-- Decidable check for a list of signatures containing some entry (after the
first) whose guardian index is less than or equal to its predecessor's. -/
def hasDescent : List Signature → Bool
  | s :: t :: r => decide (t.guardianIndex ≤ s.guardianIndex) || hasDescent (t :: r)
  | _ => false

/-- A concrete executable stand-in for the opaque `keccak256` primitive, used
only to evaluate the embedding on concrete inputs. -/
def concreteKeccak : List Nat → Nat :=
  fun l => l.foldl (fun a b => a * 256 + b + 1) 1

/-- Concrete state whose registry answers every index with an EMPTY guardian
set (so header verification fails with `invalid guardian set`), with an empty
verified-hash cache. -/
def stEmptyGS : EthState :=
  { guardianSets := fun _ => { keys := [], expirationTime := 0 },
    currentGuardianSetIndex := 0, timestamp := 0,
    verifiedCache := fun _ => false, keccak := concreteKeccak,
    ecrecover := fun _ _ _ _ => 0 }

/-- Concrete version-2 batch buffer: version byte 2, guardianSetIndex 0, zero
signatures, `hashesLen` byte 1 at offset 6, 31 zero bytes, and a zero
`observationsLen` byte at offset 38 (39 bytes in total). -/
def bufBatch : List Nat := [2, 0, 0, 0, 0, 0, 1] ++ List.replicate 31 0 ++ [0]

/-- Concrete state with a single-guardian set (address 5, expiration 0),
current index 0, clock 9, empty cache, and an `ecrecover` that always recovers
address 5 (so the one signature of `bufV1` is cryptographically valid). -/
def stOneGuardian : EthState :=
  { guardianSets := fun _ => { keys := [5], expirationTime := 0 },
    currentGuardianSetIndex := 0, timestamp := 9,
    verifiedCache := fun _ => false, keccak := concreteKeccak,
    ecrecover := fun _ _ _ _ => 5 }

/-- Concrete version-1 buffer: version byte 1, guardianSetIndex 0, one
all-zero 66-byte signature record, and an all-zero 51-byte observation body
(123 bytes in total). -/
def bufV1 : List Nat := [1, 0, 0, 0, 0, 1] ++ List.replicate 66 0 ++ List.replicate 51 0

/-- The `VM` that `parseVM` produces from `bufV1`. -/
def vmV1 : VM :=
  { version := 1, guardianSetIndex := 0,
    signatures := [{ guardianIndex := 0, r := 0, s := 0, v := 27 }],
    timestamp := 0, nonce := 0, emitterChainId := 0, emitterAddress := 0,
    sequence := 0, consistencyLevel := 0, payload := [],
    hash := doubleHash concreteKeccak (List.replicate 51 0) }

/-- Concrete state whose verified-hash cache contains exactly the hash 42,
while the registry would fail every other check (empty key list, expired,
non-current index). -/
def stCachedHash : EthState :=
  { guardianSets := fun _ => { keys := [], expirationTime := 1 },
    currentGuardianSetIndex := 3, timestamp := 1000,
    verifiedCache := fun h => h == 42, keccak := concreteKeccak,
    ecrecover := fun _ _ _ _ => 0 }

/-- Concrete state with a single-guardian set that expired at time 10 while
the clock reads 100, and current guardian-set index 0. -/
def stExpiredSet : EthState :=
  { guardianSets := fun _ => { keys := [5], expirationTime := 10 },
    currentGuardianSetIndex := 0, timestamp := 100,
    verifiedCache := fun _ => false, keccak := concreteKeccak,
    ecrecover := fun _ _ _ _ => 5 }

/-- Concrete state whose registry answers every index with a 256-key guardian
set (one more than the maximum the contract supports). -/
def stManyGuardians : EthState :=
  { guardianSets := fun _ => { keys := List.replicate 256 1, expirationTime := 0 },
    currentGuardianSetIndex := 0, timestamp := 0,
    verifiedCache := fun _ => false, keccak := concreteKeccak,
    ecrecover := fun _ _ _ _ => 1 }

instance {ε α : Type} [DecidableEq ε] [DecidableEq α] : DecidableEq (Except ε α) := fun x y =>
  match x, y with
  | .ok a, .ok b =>
    if h : a = b then isTrue (by rw [h])
    else isFalse (by intro hc; injection hc; contradiction)
  | .error a, .error b =>
    if h : a = b then isTrue (by rw [h])
    else isFalse (by intro hc; injection hc; contradiction)
  | .ok _, .error _ => isFalse (fun hc => Except.noConfusion hc)
  | .error _, .ok _ => isFalse (fun hc => Except.noConfusion hc)

@[simp]
theorem bindOk (a : α) (f : α → Except ε β) : (Except.ok a : Except ε α) >>= f = f a := rfl

@[simp]
theorem bindErr (e : ε) (f : α → Except ε β) :
    (Except.error e : Except ε α) >>= f = Except.error e := rfl

theorem toUintN_ok_bound {n : Nat} {buf : List Nat} {s v : Nat}
    (h : toUintN n buf s = .ok v) : s + n ≤ buf.length := by
  by_cases hb : s + n ≤ buf.length
  · exact hb
  · rw [toUintN, if_neg hb] at h
    cases h

theorem slice_ok_bound {buf : List Nat} {s l : Nat} {v : List Nat}
    (h : slice buf s l = .ok v) : s + l ≤ buf.length := by
  by_cases hb : s + l ≤ buf.length
  · exact hb
  · rw [slice, if_neg hb] at h
    cases h

theorem bind_ok_iff {e : Except ε α} {f : α → Except ε β} {b : β} :
    (e >>= f) = .ok b ↔ ∃ a, e = .ok a ∧ f a = .ok b := by
  cases e <;> simp

theorem resultOk_false_of_ne {e : Except ε α} (h : ∀ a, e ≠ .ok a) : resultOk e = false := by
  cases e with
  | ok a => exact absurd rfl (h a)
  | error _ => rfl

theorem parseObservation_whole_len (buf : List Nat) (o : Observation) :
    parseObservation 4 buf.length buf ≠ .ok o := by
  intro hok
  rw [parseObservation] at hok
  simp only [bind_ok_iff] at hok
  obtain ⟨v1, h1, v2, h2, v3, h3, v4, h4, v5, h5, v6, h6, hok⟩ := hok
  have hb6 : 4 + 50 + 1 ≤ buf.length := toUintN_ok_bound h6
  split at hok
  · exact Except.noConfusion hok
  · simp only [bind_ok_iff] at hok
    obtain ⟨p, hp, _⟩ := hok
    have hbp : 4 + 51 + (buf.length - (4 + 51 - 4)) ≤ buf.length := slice_ok_bound hp
    omega

/-- C3: `parseVM3` reverts on every input buffer — the whole buffer length is
passed into `parseObservation`, whose payload slice bound then demands a
buffer at least 4 bytes longer than itself — so `parseAndVerifyVM3` and the
version-3 branch of `parseAndVerifyVAA` never succeed on any input. -/
theorem C3_parseVM3_never_succeeds (st : EthState) (buf : List Nat) :
    resultOk (parseVM3 st.keccak buf) = false ∧
    resultOk (parseAndVerifyVM3 st buf) = false ∧
    (buf.head? = some 3 → resultOk (parseAndVerifyVAA st buf) = false) := by
  have hvm3 : ∀ (k : List Nat → Nat) (o : VM3), parseVM3 k buf ≠ .ok o := by
    intro k o hok
    rw [parseVM3] at hok
    simp only [bind_ok_iff] at hok
    obtain ⟨ver, _, hok⟩ := hok
    split at hok
    · simp only [bind_ok_iff] at hok
      obtain ⟨obs, hobs, _⟩ := hok
      exact parseObservation_whole_len buf obs hobs
    · exact Except.noConfusion hok
  have h1 : resultOk (parseVM3 st.keccak buf) = false :=
    resultOk_false_of_ne (hvm3 st.keccak)
  have h2 : resultOk (parseAndVerifyVM3 st buf) = false := by
    cases hx : parseVM3 st.keccak buf with
    | ok vm => exact absurd hx (hvm3 st.keccak vm)
    | error e => simp [parseAndVerifyVM3, hx, resultOk]
  refine ⟨h1, h2, ?_⟩
  intro hhead
  match buf, hhead with
  | 3 :: t, _ =>
    have hu : toUint8 (3 :: t) 0 = .ok 3 := by
      simp [toUint8, toUintN, readBE, List.range_succ]
    cases hx : parseAndVerifyVM3 st (3 :: t) with
    | ok y =>
      rw [hx] at h2
      simp [resultOk] at h2
    | error e =>
      simp [parseAndVerifyVAA, hu, hx, resultOk]

/-- Witness for C3 at the concrete five-byte buffer `[3, 0, 0, 3, 0]` (whose
byte at offset 3 is the version byte 3). -/
theorem C3_parseVM3_never_succeeds_witness :
    resultOk (parseVM3 stOneGuardian.keccak [3, 0, 0, 3, 0]) = false ∧
    resultOk (parseAndVerifyVM3 stOneGuardian [3, 0, 0, 3, 0]) = false ∧
    resultOk (parseAndVerifyVAA stOneGuardian [3, 0, 0, 3, 0]) = false :=
  ⟨(C3_parseVM3_never_succeeds stOneGuardian [3, 0, 0, 3, 0]).1,
   (C3_parseVM3_never_succeeds stOneGuardian [3, 0, 0, 3, 0]).2.1,
   (C3_parseVM3_never_succeeds stOneGuardian [3, 0, 0, 3, 0]).2.2 rfl⟩

set_option maxRecDepth 40000 in
/-- C1 (code bug): at a concrete version-2 batch buffer that parses fine but
FAILS verification with `(false, "invalid guardian set")`, `parseAndVerifyVM2`
nevertheless marks the batch's hash (the word `2 ^ 248`, not verified
beforehand) as verified in the cache: hashes are inserted unconditionally, not
only after a successful quorum pass. -/
theorem C1_batch_cache_marked_despite_invalid :
    (parseAndVerifyVM2 stEmptyGS bufBatch).map (fun p => (p.1.2.1, p.1.2.2)) =
      .ok (false, "invalid guardian set") ∧
    (parseAndVerifyVM2 stEmptyGS bufBatch).map (fun p => p.1.1.header.hashes) =
      .ok [2 ^ 248] ∧
    verifiedHashCached stEmptyGS (2 ^ 248) = false ∧
    (parseAndVerifyVM2 stEmptyGS bufBatch).map (fun p => verifiedHashCached p.2 (2 ^ 248)) =
      .ok true :=
  ⟨rfl, rfl, rfl, rfl⟩

set_option maxRecDepth 40000 in
/-- C2 (code bug): at a concrete accepted version-2 buffer whose `hashesLen`
byte (value 1) sits at offset 6, the header hash is the double-hash of the 32
raw bytes starting AT offset 6 — the `hashesLen` byte itself is the first
hashed byte — and NOT of the 32 bytes starting at offset 7 (the byte after
`hashesLen`) as the claim states; the hash list is likewise parsed starting at
offset 6, so the parsed hash equals the big-endian word read at offset 6. -/
theorem C2_hash_region_includes_hashesLen_byte :
    bufBatch.getD 6 0 = 1 ∧
    (parseVM2 concreteKeccak bufBatch).map (fun vm => vm.header.hash) =
      .ok (doubleHash concreteKeccak ((bufBatch.drop 6).take 32)) ∧
    (parseVM2 concreteKeccak bufBatch).map (fun vm => vm.header.hash) ≠
      .ok (doubleHash concreteKeccak ((bufBatch.drop 7).take 32)) ∧
    (parseVM2 concreteKeccak bufBatch).map (fun vm => vm.header.hashes) =
      .ok [readBE bufBatch 6 32] :=
  ⟨rfl, rfl, by decide, rfl⟩

theorem verifySignaturesAux_outcomes (ec : Nat → Nat → Nat → Nat → Nat) (h : Nat) (gs : GuardianSet) :
    ∀ (sigs : List Signature) (last : Nat) (first : Bool),
      verifySignaturesAux ec h gs sigs last first = .ok (true, "") ∨
      verifySignaturesAux ec h gs sigs last first = .ok (false, "VM signature invalid") ∨
      verifySignaturesAux ec h gs sigs last first = .error "signature indices must be ascending" ∨
      verifySignaturesAux ec h gs sigs last first = .error "guardian index out of bounds" := by
  intro sigs
  induction sigs with
  | nil => intro last first; left; rfl
  | cons s rest ih =>
    intro last first
    simp only [verifySignaturesAux]
    split_ifs with h1 h2 h3
    · exact ih s.guardianIndex false
    · right; left; rfl
    · right; right; right; rfl
    · right; right; left; rfl

/-- C4 (counterexample): verifying a header whose signature list has a
duplicate (hence non-ascending) guardian index, each signature individually
valid under the registry's single guardian, ABORTS execution with the
`require` revert `signature indices must be ascending` instead of returning a
`(false, reason)` pair; an out-of-range guardian index likewise reverts with
`guardian index out of bounds`. -/
theorem C4_order_range_revert_counterexample :
    verifyHeader stOneGuardian
      { guardianSetIndex := 0,
        signatures := [{ guardianIndex := 0, r := 0, s := 0, v := 27 },
                       { guardianIndex := 0, r := 0, s := 0, v := 27 }],
        hash := 11 } =
      .error "signature indices must be ascending" ∧
    verifyHeader stOneGuardian
      { guardianSetIndex := 0,
        signatures := [{ guardianIndex := 5, r := 0, s := 0, v := 27 }],
        hash := 11 } =
      .error "guardian index out of bounds" :=
  ⟨rfl, rfl⟩

/-- C4 (amended): exhaustive outcome taxonomy of the verification pipeline.
Invalid guardian set, guardian-set expiry, no quorum and invalid signature are
returned as `(false, reason)` pairs (`Except.ok`), never thrown; but
signature-order violations, out-of-range guardian indices and oversize
guardian sets abort execution (`Except.error`, a `require` revert). No other
outcome is possible. -/
theorem C4_outcome_taxonomy :
    (∀ (ec : Nat → Nat → Nat → Nat → Nat) (h : Nat) (sigs : List Signature) (gs : GuardianSet),
      verifySignatures ec h sigs gs = .ok (true, "") ∨
      verifySignatures ec h sigs gs = .ok (false, "VM signature invalid") ∨
      verifySignatures ec h sigs gs = .error "signature indices must be ascending" ∨
      verifySignatures ec h sigs gs = .error "guardian index out of bounds") ∧
    (∀ (st : EthState) (hdr : Header),
      verifyHeader st hdr = .ok (true, "") ∨
      verifyHeader st hdr = .ok (false, "invalid guardian set") ∨
      verifyHeader st hdr = .ok (false, "guardian set has expired") ∨
      verifyHeader st hdr = .ok (false, "no quorum") ∨
      verifyHeader st hdr = .ok (false, "VM signature invalid") ∨
      verifyHeader st hdr = .error "too many guardians" ∨
      verifyHeader st hdr = .error "signature indices must be ascending" ∨
      verifyHeader st hdr = .error "guardian index out of bounds") := by
  constructor
  · intro ec h sigs gs
    exact verifySignaturesAux_outcomes ec h gs sigs 0 true
  · intro st hdr
    simp only [verifyHeader]
    split_ifs with h1 h2 h3
    · left; rfl
    · right; left; rfl
    · right; right; left; rfl
    · by_cases h256 : (getGuardianSet st hdr.guardianSetIndex).keys.length < 256
      · simp only [quorum, if_pos h256, bindOk]
        split_ifs with h4
        · right; right; right; left; rfl
        · rcases verifySignaturesAux_outcomes st.ecrecover hdr.hash
              (getGuardianSet st hdr.guardianSetIndex) hdr.signatures 0 true with h5 | h5 | h5 | h5 <;>
            rw [show verifySignatures st.ecrecover hdr.hash hdr.signatures
                  (getGuardianSet st hdr.guardianSetIndex) = _ from h5] <;> simp
      · simp only [quorum, if_neg h256, bindErr]
        right; right; right; right; right; left; trivial

/-- C7: whenever a header's hash is already marked verified in the cache,
`verifyHeader` returns `(true, "")` immediately, for EVERY state — hence for
any guardian registry (even one whose checks would all fail), any clock, any
`ecrecover`, and any signature list (including the empty one): none of the
later checks can influence the result. -/
theorem C7_cache_bypass (st : EthState) (hdr : Header)
    (h : verifiedHashCached st hdr.hash = true) :
    verifyHeader st hdr = .ok (true, "") := by
  simp [verifyHeader, h]

/-- Witness for C7: the cache holds hash 42, the registry answers with an
EMPTY expired non-current guardian set, the signature list is empty, and
verification still returns `(true, "")`. -/
theorem C7_cache_bypass_witness :
    verifiedHashCached stCachedHash 42 = true ∧
    (getGuardianSet stCachedHash 9).keys.length = 0 ∧
    verifyHeader stCachedHash { guardianSetIndex := 9, signatures := [], hash := 42 } =
      .ok (true, "") :=
  ⟨rfl, rfl,
   C7_cache_bypass stCachedHash { guardianSetIndex := 9, signatures := [], hash := 42 } rfl⟩

/-- C6: for every guardian-set size below 256 the required quorum is
`n * 2 / 3 + 1`; from 256 on, `quorum` reverts with `too many guardians`,
and inside `verifyHeader` that revert happens for EVERY signature list —
before any comparison against the signature count can take place. -/
theorem C6_quorum_formula (n : Nat) :
    (n < 256 → quorum n = .ok (n * 2 / 3 + 1)) ∧
    (256 ≤ n → quorum n = .error "too many guardians") ∧
    (∀ (st : EthState) (hdr : Header),
      verifiedHashCached st hdr.hash = false →
      (getGuardianSet st hdr.guardianSetIndex).keys.length = n →
      256 ≤ n →
      (hdr.guardianSetIndex = getCurrentGuardianSetIndex st ∨
        ¬ (getGuardianSet st hdr.guardianSetIndex).expirationTime < st.timestamp) →
      verifyHeader st hdr = .error "too many guardians") := by
  refine ⟨?_, ?_, ?_⟩
  · intro h; simp [quorum, h]
  · intro h; rw [quorum, if_neg (by omega)]
  · intro st hdr hc hk h256 hcur
    simp only [verifyHeader]
    split_ifs with h1 h2 h3
    · exact absurd h1 (by simp [hc])
    · rw [hk] at h2; omega
    · rcases h3 with ⟨hne, hexp⟩
      rcases hcur with hcur | hcur
      · exact hne hcur
      · exact hcur hexp
    · rw [hk, quorum, if_neg (by omega)]
      rfl

set_option maxRecDepth 40000 in
/-- Witness for C6: the quorum table 1,2,3,4,7,255 ↦ 1,2,3,3,5,171, the
`TooManyGuardians` revert at exactly 256, and `verifyHeader` reverting on a
256-key set with an empty signature list (no `no quorum` comparison). -/
theorem C6_quorum_formula_witness :
    quorum 1 = .ok 1 ∧ quorum 2 = .ok 2 ∧ quorum 3 = .ok 3 ∧ quorum 4 = .ok 3 ∧
    quorum 7 = .ok 5 ∧ quorum 255 = .ok 171 ∧
    quorum 256 = .error "too many guardians" ∧
    verifyHeader stManyGuardians { guardianSetIndex := 0, signatures := [], hash := 11 } =
      .error "too many guardians" :=
  ⟨(C6_quorum_formula 1).1 (by decide), (C6_quorum_formula 2).1 (by decide),
   (C6_quorum_formula 3).1 (by decide), (C6_quorum_formula 4).1 (by decide),
   (C6_quorum_formula 7).1 (by decide), (C6_quorum_formula 255).1 (by decide),
   (C6_quorum_formula 256).2.1 (by decide),
   (C6_quorum_formula 256).2.2 stManyGuardians
     { guardianSetIndex := 0, signatures := [], hash := 11 }
     rfl (by decide) (by decide) (Or.inl rfl)⟩

/-- C8: provided the expiry check is reached (hash not cached, guardian set
non-empty), `verifyHeader` answers `(false, "guardian set has expired")`
exactly when the message's guardian-set index differs from the current index
AND that set's expiration time lies strictly before the clock; a current-index
set passes regardless of expiration, and a non-current but unexpired set also
passes. -/
theorem C8_expiry_check (st : EthState) (hdr : Header)
    (hnc : verifiedHashCached st hdr.hash = false)
    (hk : ¬ (getGuardianSet st hdr.guardianSetIndex).keys.length = 0) :
    (verifyHeader st hdr = .ok (false, "guardian set has expired") ↔
      (hdr.guardianSetIndex ≠ getCurrentGuardianSetIndex st ∧
       (getGuardianSet st hdr.guardianSetIndex).expirationTime < st.timestamp)) := by
  simp only [verifyHeader]
  rw [if_neg (by simp [hnc]), if_neg hk]
  by_cases hc : hdr.guardianSetIndex ≠ getCurrentGuardianSetIndex st ∧
      (getGuardianSet st hdr.guardianSetIndex).expirationTime < st.timestamp
  · rw [if_pos hc]
    exact ⟨fun _ => hc, fun _ => rfl⟩
  · rw [if_neg hc]
    constructor
    · intro hres
      exfalso
      by_cases h256 : (getGuardianSet st hdr.guardianSetIndex).keys.length < 256
      · simp only [quorum, if_pos h256, bindOk] at hres
        split at hres
        · exact absurd hres (by decide)
        · rcases verifySignaturesAux_outcomes st.ecrecover hdr.hash
              (getGuardianSet st hdr.guardianSetIndex) hdr.signatures 0 true with h5 | h5 | h5 | h5 <;>
            rw [show verifySignatures st.ecrecover hdr.hash hdr.signatures
                  (getGuardianSet st hdr.guardianSetIndex) = _ from h5] at hres <;>
            simp at hres
      · simp only [quorum, if_neg h256, bindErr] at hres
        exact absurd hres (by decide)
    · intro hcond
      exact absurd hcond hc

/-- Witness for C8: a non-current (index 1 vs current 0) set expired at time
10 under a clock reading 100 is rejected as expired. -/
theorem C8_expiry_check_witness :
    verifyHeader stExpiredSet { guardianSetIndex := 1, signatures := [], hash := 11 } =
      .ok (false, "guardian set has expired") :=
  (C8_expiry_check stExpiredSet { guardianSetIndex := 1, signatures := [], hash := 11 }
    rfl (by decide)).mpr ⟨by decide, by decide⟩

theorem verifySignaturesAux_descent (ec : Nat → Nat → Nat → Nat → Nat) (h : Nat) (gs : GuardianSet) :
    ∀ (sigs : List Signature) (last : Nat) (first : Bool),
      (∀ s ∈ sigs, s.guardianIndex < gs.keys.length ∧
        ec h s.v s.r s.s = gs.keys.getD s.guardianIndex 0) →
      (hasDescent sigs = true ∨
        (first = false ∧ ∃ s t, sigs = s :: t ∧ s.guardianIndex ≤ last)) →
      verifySignaturesAux ec h gs sigs last first = .error "signature indices must be ascending" := by
  intro sigs
  induction sigs with
  | nil =>
    intro last first _ hbad
    rcases hbad with hd | ⟨_, s, t, hst, _⟩
    · simp [hasDescent] at hd
    · exact List.noConfusion hst
  | cons s rest ih =>
    intro last first hval hbad
    simp only [verifySignaturesAux]
    by_cases hord : (first || decide (last < s.guardianIndex)) = true
    · rw [if_pos hord]
      have hs := hval s (List.mem_cons_self s rest)
      rw [if_pos hs.1, if_pos hs.2]
      apply ih s.guardianIndex false
      · intro x hx
        exact hval x (List.mem_cons_of_mem s hx)
      · rcases hbad with hd | ⟨hf, s', t', hst, hle⟩
        · cases rest with
          | nil => simp [hasDescent] at hd
          | cons t r =>
            simp only [hasDescent, Bool.or_eq_true, decide_eq_true_eq] at hd
            rcases hd with hle | hd
            · exact Or.inr ⟨rfl, t, r, rfl, hle⟩
            · exact Or.inl hd
        · exfalso
          injection hst with hs1 _
          rw [hf, Bool.false_or, decide_eq_true_eq] at hord
          rw [← hs1] at hle
          omega
    · rw [if_neg hord]

theorem verifySignaturesAux_ascending (ec : Nat → Nat → Nat → Nat → Nat) (h : Nat) (gs : GuardianSet) :
    ∀ (sigs : List Signature) (last : Nat) (first : Bool),
      (∀ s ∈ sigs, s.guardianIndex < gs.keys.length ∧
        ec h s.v s.r s.s = gs.keys.getD s.guardianIndex 0) →
      hasDescent sigs = false →
      (first = true ∨ ∀ s' t', sigs = s' :: t' → last < s'.guardianIndex) →
      verifySignaturesAux ec h gs sigs last first = .ok (true, "") := by
  intro sigs
  induction sigs with
  | nil => intro last first _ _ _; rfl
  | cons s rest ih =>
    intro last first hval hnd hok
    simp only [verifySignaturesAux]
    have hord : (first || decide (last < s.guardianIndex)) = true := by
      rcases hok with hf | hlt
      · simp [hf]
      · simp [hlt s rest rfl]
    rw [if_pos hord]
    have hs := hval s (List.mem_cons_self s rest)
    rw [if_pos hs.1, if_pos hs.2]
    apply ih s.guardianIndex false
    · intro x hx
      exact hval x (List.mem_cons_of_mem s hx)
    · cases rest with
      | nil => rfl
      | cons t r =>
        simp only [hasDescent, Bool.or_eq_false_iff, decide_eq_false_iff_not] at hnd
        exact hnd.2
    · right
      intro s' t' hst
      cases rest with
      | nil => exact List.noConfusion hst
      | cons t r =>
        injection hst with hs1 _
        simp only [hasDescent, Bool.or_eq_false_iff, decide_eq_false_iff_not] at hnd
        rw [← hs1]
        have := hnd.1
        omega

/-- C9: for any signature list whose entries are all in range and all
individually valid under `ec`, the walk fails with the ascending-order error
as soon as the list has some entry (after the first) whose guardian index is
not strictly greater than its predecessor's — duplicates included — and
succeeds otherwise, the first entry being free to carry any in-range index. -/
theorem C9_strict_ascending_order (ec : Nat → Nat → Nat → Nat → Nat) (h : Nat)
    (gs : GuardianSet) (sigs : List Signature)
    (hval : ∀ s ∈ sigs, s.guardianIndex < gs.keys.length ∧
      ec h s.v s.r s.s = gs.keys.getD s.guardianIndex 0) :
    (hasDescent sigs = true →
      verifySignatures ec h sigs gs = .error "signature indices must be ascending") ∧
    (hasDescent sigs = false → verifySignatures ec h sigs gs = .ok (true, "")) :=
  ⟨fun hd => verifySignaturesAux_descent ec h gs sigs 0 true hval (Or.inl hd),
   fun hnd => verifySignaturesAux_ascending ec h gs sigs 0 true hval hnd (Or.inl rfl)⟩

/-- Witness for C9: a duplicated guardian index 1 (both signatures valid for a
two-key set) fails with the ascending-order revert, while the singleton list
whose first entry carries the non-zero index 1 passes. -/
theorem C9_strict_ascending_order_witness :
    verifySignatures (fun _ _ _ _ => 4) 99
      [{ guardianIndex := 1, r := 0, s := 0, v := 27 },
       { guardianIndex := 1, r := 0, s := 0, v := 27 }]
      { keys := [4, 4], expirationTime := 0 } =
      .error "signature indices must be ascending" ∧
    verifySignatures (fun _ _ _ _ => 4) 99
      [{ guardianIndex := 1, r := 0, s := 0, v := 27 }]
      { keys := [4, 4], expirationTime := 0 } = .ok (true, "") :=
  ⟨(C9_strict_ascending_order (fun _ _ _ _ => 4) 99 { keys := [4, 4], expirationTime := 0 }
      [{ guardianIndex := 1, r := 0, s := 0, v := 27 },
       { guardianIndex := 1, r := 0, s := 0, v := 27 }] (by decide)).1 rfl,
   (C9_strict_ascending_order (fun _ _ _ _ => 4) 99 { keys := [4, 4], expirationTime := 0 }
      [{ guardianIndex := 1, r := 0, s := 0, v := 27 }] (by decide)).2 rfl⟩

/-- C10 (amended): any buffer whose first byte is readable and differs from
both 1 and 3 makes `parseAndVerifyVAA` return the default-zero observation
with `(false, "Invalid version")` — a constant reason string that does not
mention the offending byte. -/
theorem C10_invalid_version_reason (st : EthState) (buf : List Nat) (b : Nat)
    (h0 : toUint8 buf 0 = .ok b) (h1 : b ≠ 1) (h3 : b ≠ 3) :
    parseAndVerifyVAA st buf = .ok (defaultObservation, false, "Invalid version") := by
  simp only [parseAndVerifyVAA]
  rw [h0, bindOk, if_neg h1, if_neg h3]

/-- Witness for C10 (amended) at the version-2 byte, which the unified entry
point also treats as unknown. -/
theorem C10_invalid_version_reason_witness :
    parseAndVerifyVAA stOneGuardian [2] = .ok (defaultObservation, false, "Invalid version") :=
  C10_invalid_version_reason stOneGuardian [2] 2 rfl (by decide) (by decide)

/-- C10 (counterexample): the unsupported version bytes 5 and 7 both produce
the SAME constant error payload `"Invalid version"`, which contains neither
digit — so the payload cannot include the literal version byte value. -/
theorem C10_invalid_version_counterexample :
    parseAndVerifyVAA stOneGuardian [5] = .ok (defaultObservation, false, "Invalid version") ∧
    parseAndVerifyVAA stOneGuardian [7] = .ok (defaultObservation, false, "Invalid version") ∧
    "Invalid version".toList.contains '5' = false ∧
    "Invalid version".toList.contains '7' = false :=
  ⟨rfl, rfl, by decide, by decide⟩

theorem verifyHeader_not_cached (st : EthState) (hdr : Header)
    (h : verifiedHashCached st hdr.hash = false) :
    verifyHeader st hdr = verifyHeaderSlow st hdr := by
  rw [verifyHeader, if_neg (by simp [h])]
  rfl

/-- C5 (amended): `parseAndVerifyVAA` is a read-only function of the state —
it never writes the verified-hash cache — so with registry, clock and cache
unchanged a second call computes exactly the same triple; and whenever the
message's hash is NOT already cached, every such call (the second of two
successive calls included) runs the full uncached pipeline
`verifyHeaderSlow`, signature recovery and all, rather than being served from
the cache. -/
theorem C5_deterministic_uncached_replay (st : EthState) (buf : List Nat) (vm : VM)
    (h1 : buf.head? = some 1) (h2 : parseVM st.keccak buf = .ok vm)
    (h3 : verifiedHashCached st vm.hash = false) :
    parseAndVerifyVAA st buf =
      (verifyHeaderSlow st { guardianSetIndex := vm.guardianSetIndex,
                             signatures := vm.signatures, hash := vm.hash }).map
        (fun p => ({ timestamp := vm.timestamp, nonce := vm.nonce,
                     emitterChainId := vm.emitterChainId, emitterAddress := vm.emitterAddress,
                     sequence := vm.sequence, consistencyLevel := vm.consistencyLevel,
                     payload := vm.payload }, p.1, p.2)) := by
  match buf, h1 with
  | 1 :: t, _ =>
    have hu : toUint8 (1 :: t) 0 = .ok 1 := by
      simp [toUint8, toUintN, readBE, List.range_succ]
    have hv : verifyVM st vm =
        verifyHeaderSlow st { guardianSetIndex := vm.guardianSetIndex,
                              signatures := vm.signatures, hash := vm.hash } :=
      verifyHeader_not_cached st _ h3
    have h2' : parseVM st.keccak (1 :: t) = .ok vm := h2
    simp only [parseAndVerifyVAA, parseAndVerifyVM, hu, bindOk, if_pos, h2', hv]
    generalize verifyHeaderSlow st (Header.mk vm.guardianSetIndex vm.signatures vm.hash) = res
    cases res with
    | ok p => simp [Except.map]
    | error e => simp [Except.map]

set_option maxRecDepth 200000 in
/-- Witness for C5 (amended) at the concrete valid version-1 buffer `bufV1`. -/
theorem C5_deterministic_uncached_replay_witness :
    parseAndVerifyVAA stOneGuardian bufV1 =
      (verifyHeaderSlow stOneGuardian
        { guardianSetIndex := 0,
          signatures := [{ guardianIndex := 0, r := 0, s := 0, v := 27 }],
          hash := doubleHash concreteKeccak (List.replicate 51 0) }).map
        (fun p => ({ timestamp := 0, nonce := 0, emitterChainId := 0, emitterAddress := 0,
                     sequence := 0, consistencyLevel := 0, payload := [] }, p.1, p.2)) :=
  C5_deterministic_uncached_replay stOneGuardian bufV1 vmV1 rfl rfl rfl

set_option maxRecDepth 200000 in
/-- C5 (counterexample): `bufV1` is a VALID buffer — the first
`parseAndVerifyVAA` call returns `(true, "")` — yet its hash is not in the
cache, and since the entry point is read-only the cache is identical at the
second call, whose cache lookup therefore misses: the second call is NOT
served from the verified-hash cache. -/
theorem C5_second_call_not_cached_counterexample :
    (parseAndVerifyVAA stOneGuardian bufV1).map (fun t => (t.2.1, t.2.2)) = .ok (true, "") ∧
    (parseVM stOneGuardian.keccak bufV1).map
      (fun vm => verifiedHashCached stOneGuardian vm.hash) = .ok false :=
  ⟨rfl, rfl⟩

end Wormhole
